import Mathlib

/-!
Verification of the order-processing API (`inf349/app.py`, `inf349/models.py`).

The embedding below translates the three endpoint handlers — `create_order`
(POST /order), `get_order` (GET /order/id) and `update_or_pay_order`
(PUT /order/id) — into pure Lean functions.  Money amounts (Python floats
holding decimal money values) are modelled as rationals; Python's bankers
rounding `round` is modelled exactly by `pyRound`/`round2`; the SQLite row of
an order is the `Order` structure; the remote payment service is an explicit
`GatewayResult` argument consumed only on the payment path; JSON request
bodies are modelled by their shape as the handlers case on them.
-/

/-- Minimal JSON value: strings and objects.  This covers every JSON shape the
handlers inspect: the payment-gateway response members and the text stored in
the `credit_card` / `transaction` columns. -/
inductive JVal where
  | str (s : String)
  | obj (members : List (String × JVal))

mutual

/-- Serialization of a JSON value, modelling `json.dumps` (member order is the
list order; no escaping is needed for the values the program stores). -/
def dumps : JVal → String
  | .str s => "\"" ++ s ++ "\""
  | .obj ms => "\x7b" ++ dumpsMembers ms ++ "\x7d"

/-- Serialization of the member list of a JSON object, comma separated. -/
def dumpsMembers : List (String × JVal) → String
  | [] => ""
  | [(k, v)] => "\"" ++ k ++ "\": " ++ dumps v
  | (k, v) :: m :: rest => "\"" ++ k ++ "\": " ++ dumps v ++ ", " ++ dumpsMembers (m :: rest)

end

/-- The text `json.dumps` produces for the empty object; the initial value of
the `credit_card` and `transaction` columns (`"\x7b\x7d"` in `create_order`). -/
def emptyObjText : String := dumps (.obj [])

/-- Python `dict.get key default` on a JSON object. -/
def jGet (ms : List (String × JVal)) (key : String) (default : JVal) : JVal :=
  match ms.find? (fun kv => kv.1 == key) with
  | some kv => kv.2
  | none => default

/-- Python 3 `round(q)` to an integer: nearest integer, ties to even. -/
def pyRound (q : ℚ) : ℤ :=
  if q - ⌊q⌋ < 1/2 then ⌊q⌋
  else if 1/2 < q - ⌊q⌋ then ⌊q⌋ + 1
  else if ⌊q⌋ % 2 = 0 then ⌊q⌋ else ⌊q⌋ + 1

/-- Python 3 `round(q, 2)`: rounding to two decimal places, ties to even. -/
def round2 (q : ℚ) : ℚ := (pyRound (100 * q) : ℚ) / 100

/-- `TAX_DEFAULT` from `app.py`: the default tax rate applied at order
creation (QC rate, the customer's province being unknown at that point). -/
def TAX_DEFAULT : ℚ := 15/100

/-- `TAX_BY_PROVINCE` from `app.py`: the per-province tax-rate table.  (It is
declared in the source and never read by any handler.) -/
def TAX_BY_PROVINCE : List (String × ℚ) :=
  [("QC", 15/100), ("ON", 13/100), ("AB", 5/100), ("BC", 12/100), ("NS", 14/100)]

/-- A row of the `products` table (`models.Product`). -/
structure Product where
  id : ℤ
  name : String
  description : String
  price : ℚ
  weight : ℕ
  in_stock : Bool
  image : String
deriving DecidableEq

/-- A row of the `orders` table (`models.Order`).  `credit_card` and
`transaction` hold JSON serialized as text, exactly as the TextField columns
do; the nullable CharField columns are `Option String`. -/
structure Order where
  id : ℕ
  productId : ℤ
  quantity : ℤ
  total_price : ℚ
  total_price_tax : ℚ
  shipping_price : ℚ
  email : Option String
  shipping_country : Option String
  shipping_address : Option String
  shipping_postal_code : Option String
  shipping_city : Option String
  shipping_province : Option String
  paid : Bool
  credit_card : String
  transaction : String
deriving DecidableEq

/-- Shape of a POST /order body, as classified by the successive checks of
`create_order`: not JSON; `"product"` absent or not an object; `"id"` or
`"quantity"` absent; `int()` failing on one of them; or two integers. -/
inductive CreateBody where
  | notJson
  | noProduct
  | missingIdOrQuantity
  | nonIntegerIdOrQuantity
  | valid (product_id : ℤ) (quantity : ℤ)

/-- Result of `create_order`: the two 422 error families of the handler, or
the created row (the 302 redirect to its id). -/
inductive CreateResult where
  | errMissingFields
  | errOutOfInventory
  | created (o : Order)

/-- The inline weight-tier computation of `create_order` (its
`shipping_price` block): `poids_total <= 500` gives 5.0, `poids_total < 2000`
gives 10.0, otherwise 25.0. -/
def shipping_price_of_weight (poids_total : ℕ) : ℚ :=
  if poids_total ≤ 500 then 5
  else if poids_total < 2000 then 10
  else 25

/-- The row `create_order` inserts on its success path: `total_price =
round(price * quantity, 2)`, `total_price_tax = round(total_ht * (1 +
TAX_DEFAULT), 2)`, the weight-tier shipping price, no customer fields,
`paid = False`, empty JSON texts. -/
def mkNewOrder (product : Product) (quantity : ℤ) (nextId : ℕ) : Order :=
  let total_ht : ℚ := product.price * (quantity : ℚ)
  { id := nextId
    productId := product.id
    quantity := quantity
    total_price := round2 total_ht
    total_price_tax := round2 (total_ht * (1 + TAX_DEFAULT))
    shipping_price := shipping_price_of_weight (product.weight * quantity.toNat)
    email := none
    shipping_country := none
    shipping_address := none
    shipping_postal_code := none
    shipping_city := none
    shipping_province := none
    paid := false
    credit_card := emptyObjText
    transaction := emptyObjText }

/-- `create_order` (POST /order).  The store of existing orders is a list;
`nextId` stands for the auto-increment id SQLite would assign.  Every failure
path returns the untouched store. -/
def create_order (body : CreateBody) (products : List Product)
    (orders : List Order) (nextId : ℕ) : CreateResult × List Order :=
  match body with
  | .notJson => (.errMissingFields, orders)
  | .noProduct => (.errMissingFields, orders)
  | .missingIdOrQuantity => (.errMissingFields, orders)
  | .nonIntegerIdOrQuantity => (.errMissingFields, orders)
  | .valid product_id quantity =>
    if quantity < 1 then (.errMissingFields, orders)
    else
      match products.find? (fun p => p.id == product_id) with
      | none => (.errOutOfInventory, orders)
      | some product =>
        if product.in_stock = false then (.errOutOfInventory, orders)
        else
          let new_order := mkNewOrder product quantity nextId
          (.created new_order, orders ++ [new_order])

/-- The `shipping_information` sub-object of the GET /order/id view: built
only when `shipping_country` is not null. -/
structure ShippingInfoView where
  country : Option String
  address : Option String
  postal_code : Option String
  city : Option String
  province : Option String
deriving DecidableEq

/-- The order view returned by `get_order` (GET /order/id). -/
structure OrderView where
  id : ℕ
  total_price : ℚ
  total_price_tax : ℚ
  email : Option String
  credit_card : JVal
  shipping_information : Option ShippingInfoView
  paid : Bool
  transaction : JVal
  product_id : ℤ
  quantity : ℤ
  shipping_price : ℚ

/-- Result of `get_order`: 404 not-found, or the 200 view. -/
inductive GetResult where
  | errNotFound
  | ok (view : OrderView)

/-- `get_order` (GET /order/id).  `loads` stands for `json.loads`: `none`
models a raised exception, which the handler's try/except turns into the
empty object for both stored JSON columns. -/
def get_order (loads : String → Option JVal) (orders : List Order)
    (order_id : ℕ) : GetResult :=
  match orders.find? (fun o => o.id == order_id) with
  | none => .errNotFound
  | some order =>
    let shipping_info : Option ShippingInfoView :=
      match order.shipping_country with
      | none => none
      | some c =>
        some { country := some c
               address := order.shipping_address
               postal_code := order.shipping_postal_code
               city := order.shipping_city
               province := order.shipping_province }
    let cc_json := (loads order.credit_card).getD (.obj [])
    let tx_json := (loads order.transaction).getD (.obj [])
    .ok { id := order.id
          total_price := order.total_price
          total_price_tax := order.total_price_tax
          email := order.email
          credit_card := cc_json
          shipping_information := shipping_info
          paid := order.paid
          transaction := tx_json
          product_id := order.productId
          quantity := order.quantity
          shipping_price := order.shipping_price }

/-- The `"shipping_information"` value: either not an object (the
`isinstance` check fails) or an object whose five keys may each be absent,
null or a string. -/
inductive ShipVal where
  | notDict
  | fields (country address postal_code city province : Option (Option String))

/-- The `"order"` member of a PUT body: the `"email"` and
`"shipping_information"` keys may each be absent (outer `Option`), and a
present value may be JSON null or a string (inner `Option`). -/
structure InfoPayload where
  email : Option (Option String)
  shipping_information : Option ShipVal

/-- Shape of a PUT /order/id body: not a JSON object, or an object with
optional `"order"` and `"credit_card"` members (the handler looks only at
those two keys, `"order"` first). -/
inductive PutBody where
  | invalid
  | dict (order : Option InfoPayload) (credit_card : Option JVal)

/-- Outcome of the single `requests.post` to the payment service: a raised
`RequestException`, or a response with a status code and a JSON-object
body. -/
inductive GatewayResult where
  | transportError
  | response (status : ℕ) (body : List (String × JVal))

/-- The payload `update_or_pay_order` posts to the payment service:
`{"credit_card": ..., "amount_charged": ...}`. -/
structure GwRequest where
  credit_card : List (String × JVal)
  amount_charged : ℤ

/-- Result of `update_or_pay_order`: the 422 `missing-fields` and
`already-paid` errors, the two 502 payment errors, the forwarded 422 body of
a remote rejection, or the 200 view of the (possibly updated) order. -/
inductive PutResult where
  | errMissingFields
  | errAlreadyPaid
  | errServiceUnavailable
  | errServiceError
  | remoteReject (body : List (String × JVal))
  | ok (o : Order)

/-- Case 1 of `update_or_pay_order` (`"order"` in the body): require the
`"email"` and `"shipping_information"` keys, then reject a paid order, then
require `shipping_information` to be an object with all five keys, then
store every supplied value verbatim and save. -/
def applyCustomerInfo (order : Order) (payload : InfoPayload) :
    PutResult × Order :=
  match payload.email, payload.shipping_information with
  | some email_val, some ship_val =>
    if order.paid then (.errAlreadyPaid, order)
    else
      match ship_val with
      | .notDict => (.errMissingFields, order)
      | .fields c a pc ci pr =>
        match c, a, pc, ci, pr with
        | some cv, some av, some pcv, some civ, some prv =>
          let order' := { order with
            email := email_val
            shipping_country := cv
            shipping_address := av
            shipping_postal_code := pcv
            shipping_city := civ
            shipping_province := prv }
          (.ok order', order')
        | _, _, _, _, _ => (.errMissingFields, order)
  | _, _ => (.errMissingFields, order)

/-- Case 2 of `update_or_pay_order` (`"credit_card"` in the body): require a
JSON object, require the six customer columns to be non-null, reject a paid
order, then post `{"credit_card", "amount_charged": int(round(total_price_tax
+ shipping_price))}` and dispatch on the outcome; the third component is the
request actually sent (none when the gateway was never contacted). -/
def applyPay (order : Order) (cc_val : JVal) (gw : GatewayResult) :
    PutResult × Order × Option GwRequest :=
  match cc_val with
  | .str _ => (.errMissingFields, order, none)
  | .obj cc_obj =>
    if order.email = none ∨ order.shipping_country = none ∨
       order.shipping_address = none ∨ order.shipping_postal_code = none ∨
       order.shipping_city = none ∨ order.shipping_province = none then
      (.errMissingFields, order, none)
    else if order.paid then (.errAlreadyPaid, order, none)
    else
      let montant : ℤ := pyRound (order.total_price_tax + order.shipping_price)
      let req : GwRequest := { credit_card := cc_obj, amount_charged := montant }
      match gw with
      | .transportError => (.errServiceUnavailable, order, some req)
      | .response status body =>
        if status = 422 then (.remoteReject body, order, some req)
        else if status = 200 then
          let received_cc := jGet body "credit_card" (.obj [])
          let received_tx := jGet body "transaction" (.obj [])
          let order' := { order with
            credit_card := dumps received_cc
            transaction := dumps received_tx
            paid := true }
          (.ok order', order', some req)
        else (.errServiceError, order, some req)

/-- `update_or_pay_order` (PUT /order/id) on an existing order: dispatch on
the body shape, `"order"` taking precedence over `"credit_card"`; neither key
present is a 422 missing-fields. -/
def update_or_pay_order (order : Order) (body : PutBody) (gw : GatewayResult) :
    PutResult × Order × Option GwRequest :=
  match body with
  | .invalid => (.errMissingFields, order, none)
  | .dict ord cc =>
    match ord with
    | some payload =>
      let r := applyCustomerInfo order payload
      (r.1, r.2, none)
    | none =>
      match cc with
      | some cc_val => applyPay order cc_val gw
      | none => (.errMissingFields, order, none)

/-- Order states reachable through the three mutating transitions: a row
inserted by a successful `create_order`, then any number of
`update_or_pay_order` calls, each consuming a gateway outcome satisfying the
environment assumption `G`. -/
inductive Reachable (G : GatewayResult → Prop) : Order → Prop where
  | create (body : CreateBody) (products : List Product)
      (orders orders' : List Order) (nextId : ℕ) (o : Order) :
      create_order body products orders nextId = (.created o, orders') →
      Reachable G o
  | step (o : Order) (body : PutBody) (gw : GatewayResult) (r : PutResult)
      (o' : Order) (req : Option GwRequest) :
      Reachable G o → G gw →
      update_or_pay_order o body gw = (r, o', req) →
      Reachable G o'

/-- The six customer columns a payment requires to be non-null. -/
def customerInfoComplete (o : Order) : Prop :=
  o.email ≠ none ∧ o.shipping_country ≠ none ∧ o.shipping_address ≠ none ∧
  o.shipping_postal_code ≠ none ∧ o.shipping_city ≠ none ∧
  o.shipping_province ≠ none

/-- A well-behaved payment gateway per the external-interface contract: every
success (status 200) response carries a non-empty `"transaction"` object. -/
def gwWellBehaved (g : GatewayResult) : Prop :=
  ∀ body, g = .response 200 body →
    ∃ l, l ≠ [] ∧ jGet body "transaction" (.obj []) = .obj l

/-- Sample in-stock product for concrete runs: price 10.00, weight 200 g. -/
def sampleProduct : Product :=
  { id := 1, name := "p", description := "d", price := 10, weight := 200,
    in_stock := true, image := "i" }

/-- The order created by `create_order` for `sampleProduct`, quantity 3. -/
def sampleOrder : Order := mkNewOrder sampleProduct 3 1

/-- A fully supplied, well-formed customer-info payload. -/
def sampleInfo : InfoPayload :=
  { email := some (some "a@b.c")
    shipping_information := some (.fields (some (some "Canada"))
      (some (some "1 Main")) (some (some "G1G1G1")) (some (some "Qc"))
      (some (some "QC"))) }

/-- `sampleOrder` after the customer-info transition with `sampleInfo`. -/
def sampleInformed : Order :=
  { sampleOrder with
    email := some "a@b.c"
    shipping_country := some "Canada"
    shipping_address := some "1 Main"
    shipping_postal_code := some "G1G1G1"
    shipping_city := some "Qc"
    shipping_province := some "QC" }

/-- A gateway success body carrying card and transaction records. -/
def goodGwBody : List (String × JVal) :=
  [("credit_card", .obj [("number", .str "42")]),
   ("transaction", .obj [("id", .str "t1")])]

/-- `sampleInformed` after a successful payment against `goodGwBody`. -/
def samplePaid : Order :=
  { sampleInformed with
    credit_card := dumps (jGet goodGwBody "credit_card" (.obj []))
    transaction := dumps (jGet goodGwBody "transaction" (.obj []))
    paid := true }

/-- An order with every customer column still null and garbage JSON texts,
for exercising the read fallback. -/
def c10Order : Order :=
  { id := 1, productId := 1, quantity := 1, total_price := 10,
    total_price_tax := 115/10, shipping_price := 5, email := none,
    shipping_country := none, shipping_address := none,
    shipping_postal_code := none, shipping_city := none,
    shipping_province := none, paid := false, credit_card := "not json",
    transaction := "oops" }

/-- Python `round` returns an integer argument unchanged. -/
theorem pyRound_intCast (n : ℤ) : pyRound (n : ℚ) = n := by
  simp [pyRound]

/-- `round(q, 2)` is the identity on amounts that are a whole number of
cents. -/
theorem round2_cents (c : ℤ) (q : ℚ) (h : 100 * q = (c : ℚ)) : round2 q = q := by
  unfold round2
  rw [h, pyRound_intCast]
  field_simp
  linarith [h]

/-- Characterization of a successful `create_order`: the body carried two
integers, the quantity check and product lookup passed, and the stored row is
`mkNewOrder` appended to the store. -/
theorem create_order_created (body : CreateBody) (products : List Product)
    (orders orders' : List Order) (nextId : ℕ) (o : Order)
    (h : create_order body products orders nextId = (.created o, orders')) :
    ∃ pid q p, body = .valid pid q ∧
      products.find? (fun x => x.id == pid) = some p ∧
      p.in_stock = true ∧ ¬ q < 1 ∧
      o = mkNewOrder p q nextId ∧ orders' = orders ++ [o] := by
  cases body with
  | notJson => simp [create_order] at h
  | noProduct => simp [create_order] at h
  | missingIdOrQuantity => simp [create_order] at h
  | nonIntegerIdOrQuantity => simp [create_order] at h
  | valid pid q =>
    by_cases hq : q < 1
    · simp [create_order, hq] at h
    · rcases hfind : products.find? (fun x => x.id == pid) with _ | p
      · simp [create_order, hq, hfind] at h
      · by_cases hstock : p.in_stock = false
        · simp [create_order, hq, hfind, hstock] at h
        · simp [create_order, hq, hfind, hstock] at h
          exact ⟨pid, q, p, rfl, hfind, by simpa using hstock, hq, h.1.symm,
            by rw [h.2.symm, h.1]⟩

/-- Any `create_order` outcome other than a created row leaves the store
untouched. -/
theorem create_order_failure_no_write (body : CreateBody)
    (products : List Product) (orders orders' : List Order) (nextId : ℕ)
    (r : CreateResult) (h : create_order body products orders nextId = (r, orders'))
    (hr : ∀ x, r ≠ .created x) : orders' = orders := by
  cases body with
  | notJson => simp [create_order] at h; exact h.2.symm
  | noProduct => simp [create_order] at h; exact h.2.symm
  | missingIdOrQuantity => simp [create_order] at h; exact h.2.symm
  | nonIntegerIdOrQuantity => simp [create_order] at h; exact h.2.symm
  | valid pid q =>
    by_cases hq : q < 1
    · simp [create_order, hq] at h; exact h.2.symm
    · rcases hfind : products.find? (fun x => x.id == pid) with _ | p
      · simp [create_order, hq, hfind] at h; exact h.2.symm
      · by_cases hstock : p.in_stock = false
        · simp [create_order, hq, hfind, hstock] at h; exact h.2.symm
        · simp [create_order, hq, hfind, hstock] at h
          exact absurd h.1.symm (hr _)

/-- A paid order is never modified by `update_or_pay_order`, whatever the
request body and the gateway outcome. -/
theorem update_paid_state_unchanged (o : Order) (body : PutBody)
    (gw : GatewayResult) (hp : o.paid = true) :
    (update_or_pay_order o body gw).2.1 = o := by
  cases body with
  | invalid => rfl
  | dict ord cc =>
    cases ord with
    | some payload =>
      rcases payload with ⟨e, s⟩
      cases e with
      | none => rfl
      | some ev =>
        cases s with
        | none => rfl
        | some sv => simp [update_or_pay_order, applyCustomerInfo, hp]
    | none =>
      cases cc with
      | none => rfl
      | some ccv =>
        cases ccv with
        | str s => rfl
        | obj cc_obj =>
          by_cases hreq : o.email = none ∨ o.shipping_country = none ∨
              o.shipping_address = none ∨ o.shipping_postal_code = none ∨
              o.shipping_city = none ∨ o.shipping_province = none
          · simp [update_or_pay_order, applyPay, hreq]
          · simp [update_or_pay_order, applyPay, hreq, hp]

/-- Outcome analysis of one `update_or_pay_order` call: either the order row
is unchanged, or a customer-info overwrite happened (order still unpaid), or
a payment succeeded — in which case the order was unpaid with complete
customer info, those columns are preserved, `paid` becomes true and the
stored transaction text is the serialized `"transaction"` member of the
gateway's 200 body. -/
theorem update_or_pay_cases (o : Order) (body : PutBody) (gw : GatewayResult)
    (r : PutResult) (o' : Order) (req : Option GwRequest)
    (h : update_or_pay_order o body gw = (r, o', req)) :
    o' = o ∨
    (o.paid = false ∧ o'.paid = false) ∨
    (o.paid = false ∧ o'.paid = true ∧
     o'.email = o.email ∧ o'.shipping_country = o.shipping_country ∧
     o'.shipping_address = o.shipping_address ∧
     o'.shipping_postal_code = o.shipping_postal_code ∧
     o'.shipping_city = o.shipping_city ∧
     o'.shipping_province = o.shipping_province ∧
     customerInfoComplete o ∧
     ∃ b, gw = .response 200 b ∧
       o'.transaction = dumps (jGet b "transaction" (.obj []))) := by
  cases body with
  | invalid =>
    left
    simp [update_or_pay_order] at h
    exact h.2.1.symm
  | dict ord cc =>
    cases ord with
    | some payload =>
      rcases payload with ⟨e, s⟩
      cases e with
      | none =>
        left
        simp [update_or_pay_order, applyCustomerInfo] at h
        exact h.2.1.symm
      | some ev =>
        cases s with
        | none =>
          left
          simp [update_or_pay_order, applyCustomerInfo] at h
          exact h.2.1.symm
        | some sv =>
          by_cases hp : o.paid
          · left
            simp [update_or_pay_order, applyCustomerInfo, hp] at h
            exact h.2.1.symm
          · cases sv with
            | notDict =>
              left
              simp [update_or_pay_order, applyCustomerInfo, hp] at h
              exact h.2.1.symm
            | fields c a pc ci pr =>
              rcases c with _ | cv
              · left
                simp [update_or_pay_order, applyCustomerInfo, hp] at h
                exact h.2.1.symm
              · rcases a with _ | av
                · left
                  simp [update_or_pay_order, applyCustomerInfo, hp] at h
                  exact h.2.1.symm
                · rcases pc with _ | pcv
                  · left
                    simp [update_or_pay_order, applyCustomerInfo, hp] at h
                    exact h.2.1.symm
                  · rcases ci with _ | civ
                    · left
                      simp [update_or_pay_order, applyCustomerInfo, hp] at h
                      exact h.2.1.symm
                    · rcases pr with _ | prv
                      · left
                        simp [update_or_pay_order, applyCustomerInfo, hp] at h
                        exact h.2.1.symm
                      · right; left
                        simp [update_or_pay_order, applyCustomerInfo, hp] at h
                        constructor
                        · simpa using hp
                        · rw [← h.2.1]
    | none =>
      cases cc with
      | none =>
        left
        simp [update_or_pay_order] at h
        exact h.2.1.symm
      | some ccv =>
        cases ccv with
        | str s =>
          left
          simp [update_or_pay_order, applyPay] at h
          exact h.2.1.symm
        | obj cc_obj =>
          by_cases hreq : o.email = none ∨ o.shipping_country = none ∨
              o.shipping_address = none ∨ o.shipping_postal_code = none ∨
              o.shipping_city = none ∨ o.shipping_province = none
          · left
            simp [update_or_pay_order, applyPay, hreq] at h
            exact h.2.1.symm
          · by_cases hp : o.paid
            · left
              simp [update_or_pay_order, applyPay, hreq, hp] at h
              exact h.2.1.symm
            · cases gw with
              | transportError =>
                left
                simp [update_or_pay_order, applyPay, hreq, hp] at h
                exact h.2.1.symm
              | response status b =>
                by_cases h422 : status = 422
                · left
                  simp [update_or_pay_order, applyPay, hreq, hp, h422] at h
                  exact h.2.1.symm
                · by_cases h200 : status = 200
                  · right; right
                    subst h200
                    simp [update_or_pay_order, applyPay, hreq, hp, h422] at h
                    push_neg at hreq
                    refine ⟨by simpa using hp, ?_, ?_, ?_, ?_, ?_, ?_, ?_,
                      ⟨hreq.1, hreq.2.1, hreq.2.2.1, hreq.2.2.2.1,
                       hreq.2.2.2.2.1, hreq.2.2.2.2.2⟩, b, rfl, ?_⟩ <;>
                      rw [← h.2.1]
                  · left
                    simp [update_or_pay_order, applyPay, hreq, hp, h422, h200] at h
                    exact h.2.1.symm

/-- A row inserted by `create_order` is unpaid. -/
theorem create_order_created_unpaid (body : CreateBody)
    (products : List Product) (orders orders' : List Order) (nextId : ℕ)
    (o : Order) (h : create_order body products orders nextId = (.created o, orders')) :
    o.paid = false := by
  obtain ⟨pid, q, p, _, _, _, _, ho, _⟩ :=
    create_order_created body products orders orders' nextId o h
  rw [ho]
  rfl

/-- In every reachable state, a paid order has all six customer columns
non-null: `paid` is only ever set on the path that has just checked them, and
a paid order is never modified again. -/
theorem reachable_paid_complete {G : GatewayResult → Prop} {o : Order}
    (h : Reachable G o) : o.paid = true → customerInfoComplete o := by
  induction h with
  | create body products orders orders' nextId o hc =>
    intro hp
    rw [create_order_created_unpaid body products orders orders' nextId o hc] at hp
    exact absurd hp (by simp)
  | step o body gw r o' req hr hG heq ih =>
    intro hp
    rcases update_or_pay_cases o body gw r o' req heq with h1 | h2 | h3
    · rw [h1] at hp ⊢
      exact ih hp
    · rw [hp] at h2
      exact absurd h2.2 (by simp)
    · obtain ⟨_, _, he, hco, had, hpc, hci, hpr, hcomp, _⟩ := h3
      unfold customerInfoComplete at hcomp ⊢
      rw [he, hco, had, hpc, hci, hpr]
      exact hcomp

/-- The serialization of a non-empty JSON object is never the empty-object
text. -/
theorem dumps_cons_ne_emptyObjText (m : String × JVal)
    (ms : List (String × JVal)) : dumps (.obj (m :: ms)) ≠ emptyObjText := by
  intro h
  have hlen := congrArg String.length h
  have hq : ("\"" : String).length = 1 := rfl
  have hlb : ("\x7b" : String).length = 1 := rfl
  have hrb : ("\x7d" : String).length = 1 := rfl
  have he : emptyObjText.length = 2 := rfl
  have h1 : 1 ≤ (dumpsMembers (m :: ms)).length := by
    rcases m with ⟨k, v⟩
    cases ms with
    | nil =>
      simp only [dumpsMembers, String.length_append]
      omega
    | cons m2 rest =>
      simp only [dumpsMembers, String.length_append]
      omega
  rw [dumps] at hlen
  simp only [String.length_append] at hlen
  omega

/-- Claim C6: for every order creation with total shipped weight
w = P.weight × quantity grams, the shipping fee is exactly 5.00 when w ≤ 500,
exactly 10.00 when 500 < w < 2000, and exactly 25.00 when w ≥ 2000; in
particular w = 500 falls in the lowest tier and w = 2000 in the highest
tier. -/
theorem c6_shipping_fee_tiers (products : List Product)
    (orders orders' : List Order) (nextId : ℕ) (pid q : ℤ) (p : Product)
    (o : Order) (hfind : products.find? (fun x => x.id == pid) = some p)
    (h : create_order (.valid pid q) products orders nextId = (.created o, orders')) :
    (p.weight * q.toNat ≤ 500 → o.shipping_price = 5) ∧
    (500 < p.weight * q.toNat → p.weight * q.toNat < 2000 → o.shipping_price = 10) ∧
    (2000 ≤ p.weight * q.toNat → o.shipping_price = 25) := by
  obtain ⟨pid', q', p', hbody, hfind', hstock, hq, ho, _⟩ :=
    create_order_created _ _ _ _ _ _ h
  injection hbody with h1 h2
  subst h1
  subst h2
  rw [hfind] at hfind'
  injection hfind' with hp'
  subst hp'
  subst ho
  refine ⟨fun hw => ?_, fun hw1 hw2 => ?_, fun hw => ?_⟩
  · simp [mkNewOrder, shipping_price_of_weight, hw]
  · have hn1 : ¬ p.weight * q.toNat ≤ 500 := by omega
    simp [mkNewOrder, shipping_price_of_weight, hn1, hw2]
  · have hn1 : ¬ p.weight * q.toNat ≤ 500 := by omega
    have hn2 : ¬ p.weight * q.toNat < 2000 := by omega
    simp [mkNewOrder, shipping_price_of_weight, hn1, hn2]

/-- Products sitting exactly on the two weight-tier boundaries. -/
def p500 : Product :=
  { id := 1, name := "b1", description := "d", price := 1, weight := 500,
    in_stock := true, image := "i" }

/-- Product of weight exactly 2000 g. -/
def p2000 : Product :=
  { id := 2, name := "b2", description := "d", price := 1, weight := 2000,
    in_stock := true, image := "i" }

/-- Witness for C6 at the two boundary weights: 500 g is charged 5.00 and
2000 g is charged 25.00. -/
theorem c6_shipping_fee_tiers_witness :
    (mkNewOrder p500 1 1).shipping_price = 5 ∧
    (mkNewOrder p2000 1 2).shipping_price = 25 := by
  constructor
  · exact (c6_shipping_fee_tiers [p500] [] [mkNewOrder p500 1 1] 1 1 1 p500
      (mkNewOrder p500 1 1) rfl rfl).1 (by decide)
  · exact (c6_shipping_fee_tiers [p2000] [] [mkNewOrder p2000 1 2] 2 2 1 p2000
      (mkNewOrder p2000 1 2) rfl rfl).2.2 (by decide)

/-- A product whose price is not a whole number of cents. -/
def cheapProduct : Product :=
  { id := 1, name := "c", description := "d", price := 1/1000, weight := 1,
    in_stock := true, image := "i" }

/-- Counterexample to claim C7 as stated: for the in-stock product of price
0.001 and quantity 1, `create_order` succeeds but the stored `total_price` is
`round(0.001, 2) = 0.00`, not `P.price × quantity = 0.001`. -/
theorem c7_counterexample :
    create_order (.valid 1 1) [cheapProduct] [] 1 =
      (.created (mkNewOrder cheapProduct 1 1), [mkNewOrder cheapProduct 1 1]) ∧
    (mkNewOrder cheapProduct 1 1).total_price = 0 ∧
    cheapProduct.price * ((1 : ℤ) : ℚ) = 1/1000 ∧
    (mkNewOrder cheapProduct 1 1).total_price ≠ cheapProduct.price * ((1 : ℤ) : ℚ) := by
  refine ⟨rfl, ?_, by norm_num [cheapProduct], ?_⟩
  · simp only [mkNewOrder, cheapProduct]
    norm_num [round2, pyRound]
  · simp only [mkNewOrder, cheapProduct]
    norm_num [round2, pyRound]

/-- Claim C7, amended: for every quantity ≥ 1 and every existing in-stock
product, `create_order` succeeds and persists a new order with
`total_price = round(P.price × quantity, 2)` — equal to `P.price × quantity`
exactly whenever the price is a whole number of cents — `total_price_tax =
round(P.price × quantity × 1.15, 2)`, `paid = false`, empty card and
transaction texts and no customer info; and any non-created outcome writes
nothing. -/
theorem c7_create_success (products : List Product) (orders : List Order)
    (nextId : ℕ) (pid q : ℤ) (p : Product)
    (hfind : products.find? (fun x => x.id == pid) = some p)
    (hstock : p.in_stock = true) (hq : 1 ≤ q) :
    create_order (.valid pid q) products orders nextId =
      (.created (mkNewOrder p q nextId), orders ++ [mkNewOrder p q nextId]) ∧
    (mkNewOrder p q nextId).total_price = round2 (p.price * (q : ℚ)) ∧
    (∀ c : ℤ, p.price = (c : ℚ) / 100 →
      (mkNewOrder p q nextId).total_price = p.price * (q : ℚ)) ∧
    (mkNewOrder p q nextId).total_price_tax =
      round2 (p.price * (q : ℚ) * (1 + 15/100)) ∧
    (mkNewOrder p q nextId).paid = false ∧
    (mkNewOrder p q nextId).credit_card = emptyObjText ∧
    (mkNewOrder p q nextId).transaction = emptyObjText ∧
    (mkNewOrder p q nextId).email = none ∧
    (mkNewOrder p q nextId).shipping_country = none ∧
    (mkNewOrder p q nextId).shipping_address = none ∧
    (mkNewOrder p q nextId).shipping_postal_code = none ∧
    (mkNewOrder p q nextId).shipping_city = none ∧
    (mkNewOrder p q nextId).shipping_province = none ∧
    (∀ body r l, create_order body products orders nextId = (r, l) →
      (∀ x, r ≠ .created x) → l = orders) := by
  have hq' : ¬ q < 1 := by omega
  refine ⟨by simp [create_order, hq', hfind, hstock], rfl, ?_, ?_, rfl, rfl,
    rfl, rfl, rfl, rfl, rfl, rfl, rfl, ?_⟩
  · intro c hcents
    show round2 (p.price * (q : ℚ)) = p.price * (q : ℚ)
    refine round2_cents (c * q) _ ?_
    rw [hcents]
    push_cast
    ring
  · show round2 (p.price * (q : ℚ) * (1 + TAX_DEFAULT)) = _
    rw [TAX_DEFAULT]
  · intro body r l hcreate hr
    exact create_order_failure_no_write body products orders l nextId r hcreate hr

/-- Witness for C7 (amended) on `sampleProduct` (price 10.00, a whole number
of cents), quantity 3: line total exactly 30.00, unpaid, no customer info. -/
theorem c7_create_success_witness :
    sampleOrder.total_price = 30 ∧ sampleOrder.paid = false ∧
    sampleOrder.email = none := by
  have h := c7_create_success [sampleProduct] [] 1 1 3 sampleProduct rfl
    rfl (by decide)
  refine ⟨?_, h.2.2.2.2.1, h.2.2.2.2.2.2.2.1⟩
  have h2 := h.2.2.1 1000 (by norm_num [sampleProduct])
  rw [show sampleOrder = mkNewOrder sampleProduct 3 1 from rfl, h2]
  norm_num [sampleProduct]

/-- Product of price 100.00 for the tax-recomputation check. -/
def c1Product : Product :=
  { id := 7, name := "x", description := "d", price := 100, weight := 100,
    in_stock := true, image := "i" }

/-- Order with lineTotal 100.00, created at the default tax rate. -/
def c1Order : Order := mkNewOrder c1Product 1 1

/-- Well-formed customer-info payload naming province ON. -/
def c1Payload : InfoPayload :=
  { email := some (some "c@d.e")
    shipping_information := some (.fields (some (some "Canada"))
      (some (some "1 Main")) (some (some "K1A0A1")) (some (some "Ottawa"))
      (some (some "ON"))) }

/-- `c1Order` as stored after that customer-info call. -/
def c1Updated : Order :=
  { c1Order with
    email := some "c@d.e"
    shipping_country := some "Canada"
    shipping_address := some "1 Main"
    shipping_postal_code := some "K1A0A1"
    shipping_city := some "Ottawa"
    shipping_province := some "ON" }

/-- Claim C1, evaluated at the failing input: on the order with
lineTotal 100.00 a successful customer-info call with province ON stores the
email and the five address fields, but `total_price_tax` stays at the
creation-time default-rate value 115.00 — the handler never recomputes it
with the 0.13 entry of `TAX_BY_PROVINCE` (that table is dead code), although
the claim requires 113.00. -/
theorem c1_tax_not_recomputed :
    update_or_pay_order c1Order (.dict (some c1Payload) none) .transportError =
      (.ok c1Updated, c1Updated, none) ∧
    c1Updated.total_price = 100 ∧
    c1Updated.shipping_province = some "ON" ∧
    TAX_BY_PROVINCE.find? (fun kv => kv.1 == "ON") = some ("ON", 13/100) ∧
    round2 ((100 : ℚ) * (1 + 13/100)) = 113 ∧
    c1Updated.total_price_tax = 115 ∧
    c1Updated.total_price_tax ≠ 113 := by
  refine ⟨rfl, ?_, rfl, rfl, ?_, ?_, ?_⟩
  · simp only [c1Updated, c1Order, mkNewOrder, c1Product]
    norm_num [round2, pyRound]
  · norm_num [round2, pyRound]
  · simp only [c1Updated, c1Order, mkNewOrder, c1Product, TAX_DEFAULT]
    norm_num [round2, pyRound]
  · simp only [c1Updated, c1Order, mkNewOrder, c1Product, TAX_DEFAULT]
    norm_num [round2, pyRound]

/-- Customer-info payload with an empty email and the unrecognized province
code XX, every key present. -/
def c4Payload : InfoPayload :=
  { email := some (some "")
    shipping_information := some (.fields (some (some "Canada"))
      (some (some "1 Main")) (some (some "G1G1G1")) (some (some "Quebec"))
      (some (some "XX"))) }

/-- `sampleOrder` as stored after the `c4Payload` call. -/
def c4Updated : Order :=
  { sampleOrder with
    email := some ""
    shipping_country := some "Canada"
    shipping_address := some "1 Main"
    shipping_postal_code := some "G1G1G1"
    shipping_city := some "Quebec"
    shipping_province := some "XX" }

/-- Counterexample to claim C4 as stated: a submission whose email is the
empty string and whose province code XX is not in the rate table is accepted
(result `ok`, values stored verbatim), not rejected with a validation
error. -/
theorem c4_counterexample :
    update_or_pay_order sampleOrder (.dict (some c4Payload) none) .transportError =
      (.ok c4Updated, c4Updated, none) ∧
    c4Updated.email = some "" ∧
    c4Updated.shipping_province = some "XX" ∧
    TAX_BY_PROVINCE.find? (fun kv => kv.1 == "XX") = none :=
  ⟨rfl, rfl, rfl, rfl⟩

/-- The customer-info branch rejects with missing-fields whenever one of the
five address keys is absent (given both top-level keys present and the order
unpaid). -/
theorem applyCustomerInfo_missing_field (o : Order) (ev : Option String)
    (c a pc ci pr : Option (Option String)) (hp : o.paid = false)
    (hnone : c = none ∨ a = none ∨ pc = none ∨ ci = none ∨ pr = none) :
    applyCustomerInfo o ⟨some ev, some (.fields c a pc ci pr)⟩ =
      (.errMissingFields, o) := by
  rcases c with _ | cv <;> rcases a with _ | av <;> rcases pc with _ | pcv <;>
    rcases ci with _ | civ <;> rcases pr with _ | prv <;>
      first
        | (simp [applyCustomerInfo, hp]; done)
        | (simp [applyCustomerInfo, hp]; simp at hnone)

/-- Claim C4, amended: on an unpaid order the customer-info transition
validates presence only — it rejects with `missing-fields` exactly when the
email key or the shipping_information key is absent, shipping_information is
not an object, or one of the five sub-field keys is missing; every supplied
value (empty strings, JSON nulls, unrecognized province codes included) is
accepted and stored verbatim, with no tax recomputation. -/
theorem c4_presence_only_validation (o : Order) (hp : o.paid = false) :
    (∀ (p : InfoPayload) (cc : Option JVal) (gw : GatewayResult),
      (p.email = none ∨ p.shipping_information = none ∨
       p.shipping_information = some .notDict ∨
       (∃ c a pc ci pr, p.shipping_information = some (.fields c a pc ci pr) ∧
         (c = none ∨ a = none ∨ pc = none ∨ ci = none ∨ pr = none))) →
      update_or_pay_order o (.dict (some p) cc) gw = (.errMissingFields, o, none)) ∧
    (∀ (ev cv av pcv civ prv : Option String) (cc : Option JVal)
        (gw : GatewayResult),
      update_or_pay_order o
        (.dict (some ⟨some ev, some (.fields (some cv) (some av)
          (some pcv) (some civ) (some prv))⟩) cc) gw =
      (.ok { o with
              email := ev
              shipping_country := cv
              shipping_address := av
              shipping_postal_code := pcv
              shipping_city := civ
              shipping_province := prv },
       { o with
         email := ev
         shipping_country := cv
         shipping_address := av
         shipping_postal_code := pcv
         shipping_city := civ
         shipping_province := prv }, none)) := by
  constructor
  · intro p cc gw hbad
    rcases p with ⟨e, s⟩
    rcases hbad with he | hs | hs | ⟨c, a, pc, ci, pr, hs, hnone⟩
    · simp only at he
      subst he
      rfl
    · simp only at hs
      subst hs
      cases e with
      | none => rfl
      | some ev => rfl
    · simp only at hs
      subst hs
      cases e with
      | none => rfl
      | some ev => simp [update_or_pay_order, applyCustomerInfo, hp]
    · simp only at hs
      subst hs
      cases e with
      | none => rfl
      | some ev =>
        simp only [update_or_pay_order]
        rw [applyCustomerInfo_missing_field o ev c a pc ci pr hp hnone]
  · intro ev cv av pcv civ prv cc gw
    simp [update_or_pay_order, applyCustomerInfo, hp]

/-- Witness for C4 (amended) on `sampleOrder`: a payload missing the city
key is rejected with the order unchanged, and a payload whose province is
the unknown code ZZ is accepted verbatim. -/
theorem c4_presence_only_validation_witness :
    update_or_pay_order sampleOrder
      (.dict (some ⟨some (some "a@b.c"), some (.fields (some (some "Canada"))
        (some (some "1 Main")) (some (some "G1G1G1")) none
        (some (some "QC")))⟩) none) .transportError =
      (.errMissingFields, sampleOrder, none) ∧
    update_or_pay_order sampleOrder
      (.dict (some ⟨some (some "a@b.c"), some (.fields (some (some "Canada"))
        (some (some "1 Main")) (some (some "G1G1G1")) (some (some "Qc"))
        (some (some "ZZ")))⟩) none) .transportError =
      (.ok { sampleOrder with
              email := some "a@b.c"
              shipping_country := some "Canada"
              shipping_address := some "1 Main"
              shipping_postal_code := some "G1G1G1"
              shipping_city := some "Qc"
              shipping_province := some "ZZ" },
       { sampleOrder with
         email := some "a@b.c"
         shipping_country := some "Canada"
         shipping_address := some "1 Main"
         shipping_postal_code := some "G1G1G1"
         shipping_city := some "Qc"
         shipping_province := some "ZZ" }, none) := by
  constructor
  · exact (c4_presence_only_validation sampleOrder rfl).1 _ none .transportError
      (Or.inr (Or.inr (Or.inr ⟨_, _, _, _, _, rfl,
        Or.inr (Or.inr (Or.inr (Or.inl rfl)))⟩)))
  · exact (c4_presence_only_validation sampleOrder rfl).2 (some "a@b.c")
      (some "Canada") (some "1 Main") (some "G1G1G1") (some "Qc")
      (some "ZZ") none .transportError

/-- Claim C8: paying an unpaid order with any customer column still null is
rejected with `missing-fields` for every card value (object or not), the
order is not modified and the gateway is never contacted. -/
theorem c8_pay_missing_info (o : Order) (hp : o.paid = false)
    (hmiss : o.email = none ∨ o.shipping_country = none ∨
      o.shipping_address = none ∨ o.shipping_postal_code = none ∨
      o.shipping_city = none ∨ o.shipping_province = none) :
    ∀ (cc_val : JVal) (gw : GatewayResult),
      update_or_pay_order o (.dict none (some cc_val)) gw =
        (.errMissingFields, o, none) := by
  intro cc_val gw
  cases cc_val with
  | str s => rfl
  | obj cc_obj => simp [update_or_pay_order, applyPay, hmiss]

/-- Witness for C8: a freshly created order (no customer info yet) with a
syntactically fine card object is rejected with missing-fields untouched. -/
theorem c8_pay_missing_info_witness :
    update_or_pay_order (mkNewOrder sampleProduct 1 4)
      (.dict none (some (.obj [("name", .str "n")]))) .transportError =
      (.errMissingFields, mkNewOrder sampleProduct 1 4, none) :=
  c8_pay_missing_info (mkNewOrder sampleProduct 1 4) rfl (Or.inl rfl)
    (.obj [("name", .str "n")]) .transportError

/-- `samplePaid` is reachable: create, set customer info, pay against a 200
response carrying card and transaction records. -/
theorem samplePaid_reachable : Reachable (fun _ => True) samplePaid :=
  Reachable.step sampleInformed (.dict none (some (.obj [("name", .str "n")])))
    (.response 200 goodGwBody) (.ok samplePaid) samplePaid
    (some ⟨[("name", .str "n")],
      pyRound (sampleInformed.total_price_tax + sampleInformed.shipping_price)⟩)
    (Reachable.step sampleOrder (.dict (some sampleInfo) none) .transportError
      (.ok sampleInformed) sampleInformed none
      (Reachable.create (.valid 1 3) [sampleProduct] [] [sampleOrder] 1
        sampleOrder rfl)
      trivial rfl)
    trivial rfl

/-- Claim C2: once an order is paid, a customer-info submission (both keys
supplied) and a payment submission (card object supplied) are both rejected
with `already-paid`, and no request body of any shape modifies the order. -/
theorem c2_paid_terminal (G : GatewayResult → Prop) (o : Order)
    (hr : Reachable G o) (hp : o.paid = true) :
    (∀ (ev : Option String) (sv : ShipVal) (cc : Option JVal)
        (gw : GatewayResult),
      update_or_pay_order o (.dict (some ⟨some ev, some sv⟩) cc) gw =
        (.errAlreadyPaid, o, none)) ∧
    (∀ (cc_obj : List (String × JVal)) (gw : GatewayResult),
      update_or_pay_order o (.dict none (some (.obj cc_obj))) gw =
        (.errAlreadyPaid, o, none)) ∧
    (∀ (body : PutBody) (gw : GatewayResult),
      (update_or_pay_order o body gw).2.1 = o) := by
  obtain ⟨h1, h2, h3, h4, h5, h6⟩ := reachable_paid_complete hr hp
  refine ⟨fun ev sv cc gw => ?_, fun cc_obj gw => ?_, fun body gw =>
    update_paid_state_unchanged o body gw hp⟩
  · simp [update_or_pay_order, applyCustomerInfo, hp]
  · simp [update_or_pay_order, applyPay, h1, h2, h3, h4, h5, h6, hp]

/-- Witness for C2 on the concrete reachable paid order `samplePaid`. -/
theorem c2_paid_terminal_witness :
    update_or_pay_order samplePaid
      (.dict (some ⟨some (some "z@z"), some .notDict⟩) none) .transportError =
      (.errAlreadyPaid, samplePaid, none) ∧
    update_or_pay_order samplePaid (.dict none (some (.obj []))) .transportError =
      (.errAlreadyPaid, samplePaid, none) := by
  have h := c2_paid_terminal (fun _ => True) samplePaid samplePaid_reachable rfl
  exact ⟨h.1 (some "z@z") .notDict none .transportError, h.2.1 [] .transportError⟩

/-- Claim C3: paying an unpaid order with complete customer info: a raised
transport exception yields the 502 service-unavailable error; a remote 422
is forwarded with its body verbatim; any other status yields the 502
service-error; in every case the order row is unchanged (hence still
unpaid). -/
theorem c3_gateway_outcomes (o : Order) (hc : customerInfoComplete o)
    (hp : o.paid = false) (cc_obj : List (String × JVal)) :
    (update_or_pay_order o (.dict none (some (.obj cc_obj))) .transportError =
      (.errServiceUnavailable, o,
       some ⟨cc_obj, pyRound (o.total_price_tax + o.shipping_price)⟩)) ∧
    (∀ b, update_or_pay_order o (.dict none (some (.obj cc_obj)))
        (.response 422 b) =
      (.remoteReject b, o,
       some ⟨cc_obj, pyRound (o.total_price_tax + o.shipping_price)⟩)) ∧
    (∀ s b, s ≠ 422 → s ≠ 200 →
      update_or_pay_order o (.dict none (some (.obj cc_obj)))
        (.response s b) =
      (.errServiceError, o,
       some ⟨cc_obj, pyRound (o.total_price_tax + o.shipping_price)⟩)) := by
  obtain ⟨h1, h2, h3, h4, h5, h6⟩ := hc
  refine ⟨?_, fun b => ?_, fun s b hs1 hs2 => ?_⟩ <;>
    simp [update_or_pay_order, applyPay, h1, h2, h3, h4, h5, h6, hp, *]

/-- Witness for C3 on `sampleInformed`: transport failure and an unexpected
status 500 both leave the order untouched with the two 502 errors. -/
theorem c3_gateway_outcomes_witness :
    update_or_pay_order sampleInformed (.dict none (some (.obj [])))
        .transportError =
      (.errServiceUnavailable, sampleInformed,
       some ⟨[], pyRound (sampleInformed.total_price_tax +
         sampleInformed.shipping_price)⟩) ∧
    update_or_pay_order sampleInformed (.dict none (some (.obj [])))
        (.response 500 [("error", .str "boom")]) =
      (.errServiceError, sampleInformed,
       some ⟨[], pyRound (sampleInformed.total_price_tax +
         sampleInformed.shipping_price)⟩) := by
  have h := c3_gateway_outcomes sampleInformed
    ⟨by simp [sampleInformed], by simp [sampleInformed], by simp [sampleInformed],
     by simp [sampleInformed], by simp [sampleInformed], by simp [sampleInformed]⟩
    rfl []
  exact ⟨h.1, h.2.2 500 [("error", .str "boom")] (by decide) (by decide)⟩

/-- Requests the payment branch sends carry the amount
`int(round(total_price_tax + shipping_price))`. -/
theorem applyPay_request_amount (o : Order) (cc_obj : List (String × JVal))
    (gw : GatewayResult) (r : PutResult) (o' : Order) (req : GwRequest)
    (h : applyPay o (.obj cc_obj) gw = (r, o', some req)) :
    req = ⟨cc_obj, pyRound (o.total_price_tax + o.shipping_price)⟩ := by
  by_cases hreq : o.email = none ∨ o.shipping_country = none ∨
      o.shipping_address = none ∨ o.shipping_postal_code = none ∨
      o.shipping_city = none ∨ o.shipping_province = none
  · simp [applyPay, hreq] at h
  · by_cases hpd : o.paid
    · simp [applyPay, hreq, hpd] at h
    · cases gw with
      | transportError =>
        simp [applyPay, hreq, hpd] at h
        exact h.2.2.symm
      | response status b =>
        by_cases h422 : status = 422
        · simp [applyPay, hreq, hpd, h422] at h
          exact h.2.2.symm
        · by_cases h200 : status = 200
          · simp [applyPay, hreq, hpd, h422, h200] at h
            exact h.2.2.symm
          · simp [applyPay, hreq, hpd, h422, h200] at h
            exact h.2.2.symm

/-- Claim C5: whenever `update_or_pay_order` contacts the payment gateway,
the amount sent is the integer `round(total_price_tax + shipping_price)`. -/
theorem c5_amount_charged (o : Order) (body : PutBody) (gw : GatewayResult)
    (r : PutResult) (o' : Order) (req : GwRequest)
    (h : update_or_pay_order o body gw = (r, o', some req)) :
    req.amount_charged = pyRound (o.total_price_tax + o.shipping_price) := by
  cases body with
  | invalid => simp [update_or_pay_order] at h
  | dict ord cc =>
    cases ord with
    | some payload => simp [update_or_pay_order] at h
    | none =>
      cases cc with
      | none => simp [update_or_pay_order] at h
      | some ccv =>
        cases ccv with
        | str s => simp [update_or_pay_order, applyPay] at h
        | obj cc_obj =>
          rw [applyPay_request_amount o cc_obj gw r o' req h]

/-- Product for the amount-charged example: price 10.00, weight 100 g. -/
def c5Product : Product :=
  { id := 2, name := "p2", description := "d", price := 10, weight := 100,
    in_stock := true, image := "i" }

/-- Informed unpaid order with taxTotal 34.50 and shippingFee 5.00. -/
def c5Order : Order :=
  { mkNewOrder c5Product 3 1 with
    email := some "e@x"
    shipping_country := some "Canada"
    shipping_address := some "1 Main"
    shipping_postal_code := some "G1G1G1"
    shipping_city := some "Qc"
    shipping_province := some "QC" }

/-- Witness for C5 on the spec's example: taxTotal 34.50, shippingFee 5.00,
amount sent to the gateway exactly 40. -/
theorem c5_amount_charged_witness :
    c5Order.total_price_tax = 345/10 ∧ c5Order.shipping_price = 5 ∧
    update_or_pay_order c5Order (.dict none (some (.obj []))) .transportError =
      (.errServiceUnavailable, c5Order, some ⟨[], 40⟩) := by
  have htax : c5Order.total_price_tax = 345/10 := by
    simp only [c5Order, mkNewOrder, c5Product, TAX_DEFAULT]
    norm_num [round2, pyRound]
  have hship : c5Order.shipping_price = 5 := by
    have h300 : (100 : ℕ) * (3 : ℤ).toNat = 300 := rfl
    simp only [c5Order, mkNewOrder, c5Product, shipping_price_of_weight, h300]
    norm_num
  have h40 : pyRound (c5Order.total_price_tax + c5Order.shipping_price) = 40 := by
    rw [htax, hship]
    norm_num [pyRound]
  refine ⟨htax, hship, ?_⟩
  have h : update_or_pay_order c5Order (.dict none (some (.obj [])))
      .transportError = (.errServiceUnavailable, c5Order,
        some ⟨[], pyRound (c5Order.total_price_tax + c5Order.shipping_price)⟩) :=
    rfl
  have hamt := c5_amount_charged c5Order (.dict none (some (.obj [])))
    .transportError .errServiceUnavailable c5Order
    ⟨[], pyRound (c5Order.total_price_tax + c5Order.shipping_price)⟩ h
  rw [h, h40]

/-- `sampleInformed` paid against a 200 response whose body is empty: the
handler defaults the missing members to the empty object and still marks the
order paid. -/
def badPaid : Order :=
  { sampleInformed with
    credit_card := dumps (jGet [] "credit_card" (.obj []))
    transaction := dumps (jGet [] "transaction" (.obj []))
    paid := true }

/-- Counterexample to claim C9 as stated: a reachable state (gateway answers
200 with a body carrying no transaction member) in which the order is paid
while its stored transaction record is the empty object. -/
theorem c9_counterexample :
    Reachable (fun _ => True) badPaid ∧ badPaid.paid = true ∧
    badPaid.transaction = emptyObjText ∧
    ¬ ∃ l, l ≠ [] ∧ badPaid.transaction = dumps (.obj l) := by
  refine ⟨?_, rfl, rfl, ?_⟩
  · exact Reachable.step sampleInformed (.dict none (some (.obj [])))
      (.response 200 []) (.ok badPaid) badPaid
      (some ⟨[], pyRound (sampleInformed.total_price_tax +
        sampleInformed.shipping_price)⟩)
      (Reachable.step sampleOrder (.dict (some sampleInfo) none)
        .transportError (.ok sampleInformed) sampleInformed none
        (Reachable.create (.valid 1 3) [sampleProduct] [] [sampleOrder] 1
          sampleOrder rfl)
        trivial rfl)
      trivial rfl
  · rintro ⟨l, hl, he⟩
    cases l with
    | nil => exact hl rfl
    | cons m ms =>
      have hb : badPaid.transaction = emptyObjText := rfl
      exact dumps_cons_ne_emptyObjText m ms (he.symm.trans hb)

/-- In every reachable state whose gateway environment only ever answers
success with a non-empty transaction object, a paid order's stored
transaction text is the serialization of a non-empty object. -/
theorem reachable_paid_transaction {G : GatewayResult → Prop}
    (hG : ∀ g, G g → gwWellBehaved g) {o : Order} (h : Reachable G o) :
    o.paid = true → ∃ l, l ≠ [] ∧ o.transaction = dumps (.obj l) := by
  induction h with
  | create body products orders orders' nextId o hc =>
    intro hp
    rw [create_order_created_unpaid body products orders orders' nextId o hc] at hp
    exact absurd hp (by simp)
  | step o body gw r o' req hr hGgw heq ih =>
    intro hp
    rcases update_or_pay_cases o body gw r o' req heq with h1 | h2 | h3
    · rw [h1] at hp ⊢
      exact ih hp
    · rw [hp] at h2
      exact absurd h2.2 (by simp)
    · obtain ⟨hop, hp', he, hco, had, hpc, hci, hpr, hcomp, b, hgw, htx⟩ := h3
      obtain ⟨l, hl, hjl⟩ := hG gw hGgw b hgw
      exact ⟨l, hl, by rw [htx, hjl]⟩

/-- Claim C9, amended: in every reachable state, a paid order has all
customer columns non-null — unconditionally; and when every gateway success
response carries a non-empty transaction object, its stored transaction
record is additionally the serialization of a non-empty object. -/
theorem c9_paid_invariant (G : GatewayResult → Prop) (o : Order)
    (h : Reachable G o) (hp : o.paid = true) :
    customerInfoComplete o ∧
    ((∀ g, G g → gwWellBehaved g) →
      ∃ l, l ≠ [] ∧ o.transaction = dumps (.obj l)) :=
  ⟨reachable_paid_complete h hp, fun hG => reachable_paid_transaction hG h hp⟩

/-- Witness for C9 (amended): under a gateway pinned to the well-behaved
success body `goodGwBody`, the reachable paid order has complete customer
info and a non-empty transaction record. -/
theorem c9_paid_invariant_witness :
    customerInfoComplete samplePaid ∧
    ∃ l, l ≠ [] ∧ samplePaid.transaction = dumps (.obj l) := by
  have h := c9_paid_invariant (fun g => g = .response 200 goodGwBody)
    samplePaid ?_ rfl
  · refine ⟨h.1, h.2 ?_⟩
    intro g hg b hb
    subst hg
    injection hb with h1 h2
    subst h2
    exact ⟨[("id", JVal.str "t1")], by simp, rfl⟩
  · exact Reachable.step sampleInformed
      (.dict none (some (.obj [("name", .str "n")])))
      (.response 200 goodGwBody) (.ok samplePaid) samplePaid
      (some ⟨[("name", .str "n")],
        pyRound (sampleInformed.total_price_tax + sampleInformed.shipping_price)⟩)
      (Reachable.step sampleOrder (.dict (some sampleInfo) none)
        (.response 200 goodGwBody) (.ok sampleInformed) sampleInformed none
        (Reachable.create (.valid 1 3) [sampleProduct] [] [sampleOrder] 1
          sampleOrder rfl)
        rfl rfl)
      rfl rfl

/-- Claim C10: reading an existing order never fails because of the stored
card/transaction texts: the view is always produced, each of the two JSON
columns rendered through `loads` with the empty object as the fallback —
in particular a text that does not parse is rendered as the empty object. -/
theorem c10_read_resilient (loads : String → Option JVal)
    (orders : List Order) (order_id : ℕ) (o : Order)
    (hfind : orders.find? (fun x => x.id == order_id) = some o) :
    get_order loads orders order_id = .ok
      { id := o.id
        total_price := o.total_price
        total_price_tax := o.total_price_tax
        email := o.email
        credit_card := (loads o.credit_card).getD (.obj [])
        shipping_information := (match o.shipping_country with
          | none => none
          | some c => some ⟨some c, o.shipping_address, o.shipping_postal_code,
              o.shipping_city, o.shipping_province⟩)
        paid := o.paid
        transaction := (loads o.transaction).getD (.obj [])
        product_id := o.productId
        quantity := o.quantity
        shipping_price := o.shipping_price } ∧
    (loads o.credit_card = none →
      (loads o.credit_card).getD (.obj []) = .obj []) ∧
    (loads o.transaction = none →
      (loads o.transaction).getD (.obj []) = .obj []) := by
  refine ⟨?_, fun h => by rw [h]; rfl, fun h => by rw [h]; rfl⟩
  simp [get_order, hfind]

/-- Witness for C10: both stored texts of `c10Order` are unparseable, the
read still succeeds and renders both as the empty object. -/
theorem c10_read_resilient_witness :
    get_order (fun _ => none) [c10Order] 1 = .ok
      { id := 1, total_price := 10, total_price_tax := 115/10, email := none,
        credit_card := .obj [], shipping_information := none, paid := false,
        transaction := .obj [], product_id := 1, quantity := 1,
        shipping_price := 5 } :=
  (c10_read_resilient (fun _ => none) [c10Order] 1 c10Order rfl).1
